import Mathlib

/-!
Verification of the interactive crop-rectangle engine of the cropper
component (`CropperViewManager` / `CropperView` / `CropOverlayView`).

The embedding below is a shallow model of the overlay's state and of its
operations, translated from the source.  `CGFloat` coordinates are
modelled by exact rationals (ℚ); `CGRect` accessors `minX`/`maxX`
standardize a negative size exactly as `CGRectGetMinX`/`CGRectGetMaxX`
do, and `CGRect.inter` models `CGRect.intersection`
(`CGRectIntersection`: standardize both operands, take the overlap, and
return the null rectangle when the operands do not overlap — the null
rectangle's infinite coordinates are represented here by the marker
value `nullRect`, since no claim depends on its coordinates).
Division on ℚ is total with `x / 0 = 0`; every statement that divides
keeps a positivity hypothesis in scope.  The comparison
`sqrt ((px-x)^2 + (py-y)^2) < 44` of `CGPoint.distance` is modelled by
the equivalent squared comparison `distSq < 44 * 44`.
-/

namespace Cropper

/-- A point in display space (`CGPoint`). -/
structure CGPoint where
  x : ℚ
  y : ℚ
  deriving DecidableEq

/-- A size (`CGSize`). -/
structure CGSize where
  width : ℚ
  height : ℚ
  deriving DecidableEq

/-- A rectangle (`CGRect`), origin plus size. -/
structure CGRect where
  x : ℚ
  y : ℚ
  width : ℚ
  height : ℚ
  deriving DecidableEq

/-- `CGRectGetMinX`: the smaller x coordinate of the two vertical edges. -/
def CGRect.minX (r : CGRect) : ℚ := min r.x (r.x + r.width)

/-- `CGRectGetMaxX`: the larger x coordinate of the two vertical edges. -/
def CGRect.maxX (r : CGRect) : ℚ := max r.x (r.x + r.width)

/-- `CGRectGetMinY`. -/
def CGRect.minY (r : CGRect) : ℚ := min r.y (r.y + r.height)

/-- `CGRectGetMaxY`. -/
def CGRect.maxY (r : CGRect) : ℚ := max r.y (r.y + r.height)

/-- `CGRectStandardize`: same rectangle with non-negative width/height. -/
def CGRect.toStd (r : CGRect) : CGRect := ⟨r.minX, r.minY, |r.width|, |r.height|⟩

/-- Marker standing for `CGRect.null` (whose real coordinates are infinite). -/
def nullRect : CGRect := ⟨0, 0, 0, 0⟩

/-- `CGRect.intersection`: overlap of the standardized operands, or the
null rectangle when they do not overlap. -/
def CGRect.inter (a b : CGRect) : CGRect :=
  if max a.toStd.x b.toStd.x ≤ min (a.toStd.x + a.toStd.width) (b.toStd.x + b.toStd.width)
      ∧ max a.toStd.y b.toStd.y ≤ min (a.toStd.y + a.toStd.height) (b.toStd.y + b.toStd.height)
  then
    ⟨max a.toStd.x b.toStd.x, max a.toStd.y b.toStd.y,
     min (a.toStd.x + a.toStd.width) (b.toStd.x + b.toStd.width) - max a.toStd.x b.toStd.x,
     min (a.toStd.y + a.toStd.height) (b.toStd.y + b.toStd.height) - max a.toStd.y b.toStd.y⟩
  else nullRect

/-- `CGRectContainsPoint`: the point is inside the rectangle or on its
minimum-x / minimum-y edge. -/
def CGRect.containsPt (r : CGRect) (p : CGPoint) : Prop :=
  r.minX ≤ p.x ∧ p.x < r.maxX ∧ r.minY ≤ p.y ∧ p.y < r.maxY

instance (r : CGRect) (p : CGPoint) : Decidable (r.containsPt p) := by
  unfold CGRect.containsPt; exact inferInstance

/-- Containment of rectangle `a` in rectangle `b` (edge coordinates). -/
def CGRect.subsetOf (a b : CGRect) : Prop :=
  b.minX ≤ a.minX ∧ b.minY ≤ a.minY ∧ a.maxX ≤ b.maxX ∧ a.maxY ≤ b.maxY

instance (a b : CGRect) : Decidable (a.subsetOf b) := by
  unfold CGRect.subsetOf; exact inferInstance

/-- Squared distance between two points; `p.distance(to: q) < d` in the
source is the same comparison as `distSq p q < d * d` for `d ≥ 0`. -/
def distSq (p q : CGPoint) : ℚ :=
  (p.x - q.x) * (p.x - q.x) + (p.y - q.y) * (p.y - q.y)

/-- `CropOverlayView.CropHandle`. -/
inductive CropHandle where
  | none
  | topLeft
  | topRight
  | bottomLeft
  | bottomRight
  | top
  | bottom
  | left
  | right
  | center
  deriving DecidableEq

/-- The fixed touch-target radius of `getHandle` (`handleSize = 44`). -/
def hitRadius : ℚ := 44

/-- `CropOverlayView.getHandle(at:)`: corners first, then edges, then the
rectangle body, then `.none`. -/
def getHandle (cropRect : CGRect) (p : CGPoint) : CropHandle :=
  if distSq p ⟨cropRect.minX, cropRect.minY⟩ < hitRadius * hitRadius then .topLeft
  else if distSq p ⟨cropRect.maxX, cropRect.minY⟩ < hitRadius * hitRadius then .topRight
  else if distSq p ⟨cropRect.minX, cropRect.maxY⟩ < hitRadius * hitRadius then .bottomLeft
  else if distSq p ⟨cropRect.maxX, cropRect.maxY⟩ < hitRadius * hitRadius then .bottomRight
  else if |p.x - cropRect.minX| < hitRadius ∧ cropRect.minY < p.y ∧ p.y < cropRect.maxY then .left
  else if |p.x - cropRect.maxX| < hitRadius ∧ cropRect.minY < p.y ∧ p.y < cropRect.maxY then .right
  else if |p.y - cropRect.minY| < hitRadius ∧ cropRect.minX < p.x ∧ p.x < cropRect.maxX then .top
  else if |p.y - cropRect.maxY| < hitRadius ∧ cropRect.minX < p.x ∧ p.x < cropRect.maxX then .bottom
  else if cropRect.containsPt p then .center
  else .none

/-- The per-handle delta application of `updateCropRect(with:)` (the
`switch activeHandle` block); `.none` leaves the rectangle untouched,
matching the early `return`. -/
def applyDelta (r : CGRect) (h : CropHandle) (t : CGPoint) : CGRect :=
  match h with
  | .topLeft => ⟨r.x + t.x, r.y + t.y, r.width - t.x, r.height - t.y⟩
  | .topRight => ⟨r.x, r.y + t.y, r.width + t.x, r.height - t.y⟩
  | .bottomLeft => ⟨r.x + t.x, r.y, r.width - t.x, r.height + t.y⟩
  | .bottomRight => ⟨r.x, r.y, r.width + t.x, r.height + t.y⟩
  | .left => ⟨r.x + t.x, r.y, r.width - t.x, r.height⟩
  | .right => ⟨r.x, r.y, r.width + t.x, r.height⟩
  | .top => ⟨r.x, r.y + t.y, r.width, r.height - t.y⟩
  | .bottom => ⟨r.x, r.y, r.width, r.height + t.y⟩
  | .center => ⟨r.x + t.x, r.y + t.y, r.width, r.height⟩
  | .none => r

/-- `CropOverlayView.applyAspectRatio(to:ratio:handle:)`. -/
def applyAspectRatio (rect : CGRect) (ratio : ℚ) (handle : CropHandle) : CGRect :=
  match handle with
  | .topLeft | .topRight | .bottomLeft | .bottomRight =>
      if rect.width / rect.height > ratio then
        { rect with width := rect.height * ratio }
      else
        { rect with height := rect.width / ratio }
  | .left | .right => { rect with height := rect.width / ratio }
  | .top | .bottom => { rect with width := rect.height * ratio }
  | _ => rect

/-- The mutable fields of `CropOverlayView` that the crop engine reads and
writes, plus the view's own `bounds`. -/
structure OverlayState where
  bounds : CGRect
  aspectRatio : Option ℚ
  minCropSize : CGSize
  cropRect : CGRect
  isDragging : Bool
  dragStartPoint : CGPoint
  dragStartRect : CGRect
  activeHandle : CropHandle
  deriving DecidableEq

/-- `CropOverlayView.updateCropRect(with:)`: per-handle delta, optional
aspect-ratio step, minimum-size clamp by `max`, then intersection with
the view's `bounds`; `.none` returns without touching `cropRect`. -/
def updateCropRect (s : OverlayState) (t : CGPoint) : OverlayState :=
  match s.activeHandle with
  | CropHandle.none => s
  | _ =>
    let r0 := applyDelta s.dragStartRect s.activeHandle t
    let r1 := match s.aspectRatio with
      | some ratio => applyAspectRatio r0 ratio s.activeHandle
      | none => r0
    let r2 : CGRect :=
      ⟨r1.x, r1.y, max r1.width s.minCropSize.width, max r1.height s.minCropSize.height⟩
    { s with cropRect := r2.inter s.bounds }

/-- The phases of `UIPanGestureRecognizer` that `handlePan` reacts to. -/
inductive PanPhase where
  | began
  | changed
  | ended
  | cancelled
  deriving DecidableEq

/-- Events the overlay emits towards its delegate.  The pan handler only
ever calls `cropOverlayDidChange`; `onGestureEnd` is wired to the scroll
view's zoom/scroll callbacks, not to the pan recognizer. -/
inductive CropEvent where
  | rectChange (r : CGRect)
  deriving DecidableEq

/-- `CropOverlayView.handlePan(_:)`: the gesture state machine.  `.began`
records the session (even when the classifier says `.none`), `.changed`
recomputes the rectangle from the start rectangle and the total
translation and notifies the delegate with the updated rectangle,
`.ended` and `.cancelled` share one branch that only clears the
dragging flag and the active handle. -/
def handlePan (s : OverlayState) (phase : PanPhase) (loc : CGPoint) :
    OverlayState × List CropEvent :=
  match phase with
  | .began =>
      ({ s with isDragging := true, dragStartPoint := loc, dragStartRect := s.cropRect,
                activeHandle := getHandle s.cropRect loc }, [])
  | .changed =>
      if s.isDragging then
        let s' := updateCropRect s ⟨loc.x - s.dragStartPoint.x, loc.y - s.dragStartPoint.y⟩
        (s', [CropEvent.rectChange s'.cropRect])
      else (s, [])
  | .ended => ({ s with isDragging := false, activeHandle := CropHandle.none }, [])
  | .cancelled => ({ s with isDragging := false, activeHandle := CropHandle.none }, [])

/-- `CropOverlayView.resetToFullImage()`: sets `cropRect` to the overlay
view's own `bounds` (the whole viewport, not the letterboxed image). -/
def resetToFullImage (s : OverlayState) : OverlayState := { s with cropRect := s.bounds }

/-- `CropOverlayView.getCropRect()`: returns the stored display-space
rectangle verbatim (as the dictionary of its four fields). -/
def getCropRect (s : OverlayState) : CGRect := s.cropRect

/-- `CropOverlayView.setCropRect(_:)`: stores the given rectangle
verbatim. -/
def setCropRect (s : OverlayState) (r : CGRect) : OverlayState := { s with cropRect := r }

/-- `CropperView.resetCropRect()` forwards to the overlay. -/
def viewResetCropRect (s : OverlayState) : OverlayState := resetToFullImage s

/-- `CropperView.applyCropRect` / `setCropRect`: parses the dictionary
(the guard only fails on malformed dictionaries, which a `CGRect`-typed
input cannot be) and forwards to the overlay. -/
def viewSetCropRect (s : OverlayState) (r : CGRect) : OverlayState := setCropRect s r

/-- `CropperView.getCurrentCropRect()` forwards to the overlay. -/
def viewGetCurrentCropRect (s : OverlayState) : CGRect := getCropRect s

/-- The letterboxed frame of the image inside the viewport, from
`CropperView.updateImageLayout()`: contain-fit scale and centering. -/
def imageDisplayBounds (imageW imageH viewW viewH : ℚ) : CGRect :=
  ⟨(viewW - imageW * min (viewW / imageW) (viewH / imageH)) / 2,
   (viewH - imageH * min (viewW / imageW) (viewH / imageH)) / 2,
   imageW * min (viewW / imageW) (viewH / imageH),
   imageH * min (viewW / imageW) (viewH / imageH)⟩

/-- One `.changed` step of the pan handler (state part). -/
def moveStep (s : OverlayState) (loc : CGPoint) : OverlayState :=
  (handlePan s PanPhase.changed loc).1

/-- A sequence of `.changed` steps. -/
def runMoves (s : OverlayState) (locs : List CGPoint) : OverlayState :=
  locs.foldl moveStep s

/-- An idle overlay over a 500×500 viewport with the default minimum crop
size (50,50), no aspect lock, and the given current rectangle. -/
def idleState (crop : CGRect) : OverlayState :=
  { bounds := ⟨0, 0, 500, 500⟩, aspectRatio := Option.none, minCropSize := ⟨50, 50⟩,
    cropRect := crop, isDragging := false, dragStartPoint := ⟨0, 0⟩,
    dragStartRect := ⟨0, 0, 0, 0⟩, activeHandle := CropHandle.none }

/-- A mid-drag overlay over a 500×500 viewport: minimum crop size (50,50),
drag-start rectangle `crop`, active handle `h`, aspect lock `ar`. -/
def dragState (crop : CGRect) (h : CropHandle) (ar : Option ℚ) : OverlayState :=
  { bounds := ⟨0, 0, 500, 500⟩, aspectRatio := ar, minCropSize := ⟨50, 50⟩,
    cropRect := crop, isDragging := true, dragStartPoint := ⟨0, 0⟩,
    dragStartRect := crop, activeHandle := h }

/-- A handle is a corner handle. -/
def isCornerHandle (h : CropHandle) : Prop :=
  h = CropHandle.topLeft ∨ h = CropHandle.topRight ∨
  h = CropHandle.bottomLeft ∨ h = CropHandle.bottomRight

instance (h : CropHandle) : Decidable (isCornerHandle h) := by
  unfold isCornerHandle; exact inferInstance

/-- A handle that resizes the rectangle (neither `.none` nor `.center`). -/
def isResizeHandle (h : CropHandle) : Prop :=
  h ≠ CropHandle.none ∧ h ≠ CropHandle.center

instance (h : CropHandle) : Decidable (isResizeHandle h) := by
  unfold isResizeHandle; exact inferInstance

/-! Helper lemmas. -/

/-- Intersection with a standardized rectangle that contains `a` is the
identity. -/
theorem inter_of_subset (a b : CGRect) (haw : 0 ≤ a.width) (hah : 0 ≤ a.height)
    (hbw : 0 ≤ b.width) (hbh : 0 ≤ b.height)
    (h1 : b.x ≤ a.x) (h2 : b.y ≤ a.y)
    (h3 : a.x + a.width ≤ b.x + b.width) (h4 : a.y + a.height ≤ b.y + b.height) :
    a.inter b = a := by
  obtain ⟨ax, ay, aw, ah⟩ := a
  obtain ⟨bx, bY, bw, bh⟩ := b
  simp only at haw hah hbw hbh h1 h2 h3 h4
  have e1 : min ax (ax + aw) = ax := min_eq_left (by linarith)
  have e2 : min ay (ay + ah) = ay := min_eq_left (by linarith)
  have e3 : min bx (bx + bw) = bx := min_eq_left (by linarith)
  have e4 : min bY (bY + bh) = bY := min_eq_left (by linarith)
  simp only [CGRect.inter, CGRect.toStd, CGRect.minX, CGRect.minY, e1, e2, e3, e4,
    abs_of_nonneg haw, abs_of_nonneg hah, abs_of_nonneg hbw, abs_of_nonneg hbh]
  rw [max_eq_left h1, max_eq_left h2, min_eq_left h3, min_eq_left h4,
    if_pos ⟨by linarith, by linarith⟩]
  congr 1 <;> ring

/-- Any non-null intersection with a standardized rectangle `b` is
contained in `b`. -/
theorem inter_subsetOf_right (a b : CGRect) (hbw : 0 ≤ b.width) (hbh : 0 ≤ b.height)
    (hne : a.inter b ≠ nullRect) : (a.inter b).subsetOf b := by
  obtain ⟨ax, ay, aw, ah⟩ := a
  obtain ⟨bx, bY, bw, bh⟩ := b
  simp only at hbw hbh
  have e3 : min bx (bx + bw) = bx := min_eq_left (by linarith)
  have e4 : min bY (bY + bh) = bY := min_eq_left (by linarith)
  simp only [CGRect.inter, CGRect.toStd, CGRect.minX, CGRect.minY, e3, e4,
    abs_of_nonneg hbw, abs_of_nonneg hbh] at hne ⊢
  have e5 : max bx (bx + bw) = bx + bw := max_eq_right (by linarith)
  have e6 : max bY (bY + bh) = bY + bh := max_eq_right (by linarith)
  by_cases hc :
      max (min ax (ax + aw)) bx ≤ min (min ax (ax + aw) + |aw|) (bx + bw) ∧
      max (min ay (ay + ah)) bY ≤ min (min ay (ay + ah) + |ah|) (bY + bh)
  · rw [if_pos hc]
    obtain ⟨hx, hy⟩ := hc
    set A1 := min ax (ax + aw) with hA1
    set B1 := min ay (ay + ah) with hB1
    set X1 := max A1 bx with hX1
    set Y1 := max B1 bY with hY1
    set X2 := min (A1 + |aw|) (bx + bw) with hX2
    set Y2 := min (B1 + |ah|) (bY + bh) with hY2
    have ex : X1 + (X2 - X1) = X2 := by ring
    have ey : Y1 + (Y2 - Y1) = Y2 := by ring
    simp only [CGRect.subsetOf, CGRect.minX, CGRect.maxX, CGRect.minY, CGRect.maxY,
      e3, e4, e5, e6, ex, ey]
    refine ⟨?_, ?_, ?_, ?_⟩
    · exact le_min (le_max_right _ _) (le_trans (le_max_right _ _) hx)
    · exact le_min (le_max_right _ _) (le_trans (le_max_right _ _) hy)
    · exact max_le (le_trans hx (min_le_right _ _)) (min_le_right _ _)
    · exact max_le (le_trans hy (min_le_right _ _)) (min_le_right _ _)
  · rw [if_neg hc] at hne
    exact absurd rfl hne

/-- With a `.none` active handle, `updateCropRect` returns without
touching the state. -/
theorem updateCropRect_none (s : OverlayState) (t : CGPoint)
    (h : s.activeHandle = CropHandle.none) : updateCropRect s t = s := by
  unfold updateCropRect
  rw [h]

/-- With a `.none` active handle, one pointer-move leaves the whole state
unchanged. -/
theorem moveStep_none (s : OverlayState) (h : s.activeHandle = CropHandle.none)
    (loc : CGPoint) : moveStep s loc = s := by
  unfold moveStep handlePan
  by_cases hd : s.isDragging = true
  · simp only [hd, if_true]
    exact updateCropRect_none s _ h
  · simp only [if_neg hd]

/-- With a `.none` active handle, any sequence of pointer-moves leaves the
whole state unchanged. -/
theorem runMoves_none : ∀ (locs : List CGPoint) (s : OverlayState),
    s.activeHandle = CropHandle.none → runMoves s locs = s := by
  intro locs
  induction locs with
  | nil => intro s _; rfl
  | cons a l ih =>
      intro s h
      show runMoves (moveStep s a) l = s
      rw [moveStep_none s h a]
      exact ih s h

/-- A pointer-move step only rewrites `cropRect`, from the drag-session
fields and the latest location; composing two steps keeps only the last. -/
theorem moveStep_moveStep (s : OverlayState) (a b : CGPoint) :
    moveStep (moveStep s a) b = moveStep s b := by
  obtain ⟨bd, ar, mc, cr, dg, sp, sr, ah⟩ := s
  cases dg <;> cases ah <;> rfl

/-- A non-empty sequence of pointer-moves is equivalent to a single move at
the last location. -/
theorem runMoves_eq_last : ∀ (locs : List CGPoint) (s : OverlayState) (h : locs ≠ []),
    runMoves s locs = moveStep s (locs.getLast h) := by
  intro locs
  induction locs with
  | nil => intro s h; exact absurd rfl h
  | cons a l ih =>
      intro s _
      cases l with
      | nil => rfl
      | cons b l' =>
          show runMoves (moveStep s a) (b :: l') = _
          rw [ih (moveStep s a) (by simp), moveStep_moveStep]
          rfl

/-- On every resize handle, `applyAspectRatio` makes the width exactly
`ratio` times the height, given positive inputs. -/
theorem applyAspectRatio_exact (r : CGRect) (ratio : ℚ) (h : CropHandle)
    (hres : isResizeHandle h) (hr : 0 < ratio) :
    (applyAspectRatio r ratio h).width = ratio * (applyAspectRatio r ratio h).height := by
  have hr0 : ratio ≠ 0 := ne_of_gt hr
  cases h
  case none => exact absurd rfl hres.1
  case center => exact absurd rfl hres.2
  case left =>
      simp only [applyAspectRatio]
      field_simp
  case right =>
      simp only [applyAspectRatio]
      field_simp
  case top =>
      simp only [applyAspectRatio]
      ring
  case bottom =>
      simp only [applyAspectRatio]
      ring
  all_goals
      simp only [applyAspectRatio]
      split_ifs <;> first
        | ring1
        | rw [mul_comm ratio (r.width / ratio), div_mul_cancel₀ r.width hr0]

/-! Claim theorems. -/

/-- Claim C1: the claim states that after `resetCropRect()` a call to
`getCropRect()` returns the full source image in image-pixel space
(`{0,0,1000,800}` for a 1000×800 image in a 500×500 viewport).  The code
evaluated at exactly that input instead returns the raw display-space
overlay rectangle `{0,0,500,500}`: `resetToFullImage` sets `cropRect` to
the overlay's `bounds` (the whole viewport, not even the letterboxed
image frame `{0,50,500,400}`), and `getCropRect` returns the stored
display rectangle without ever applying the inverse layout transform. -/
theorem C1_reset_getCropRect_display_space :
    viewGetCurrentCropRect (viewResetCropRect (idleState ⟨0, 0, 100, 100⟩)) = ⟨0, 0, 500, 500⟩ ∧
    imageDisplayBounds 1000 800 500 500 = ⟨0, 50, 500, 400⟩ ∧
    viewGetCurrentCropRect (viewResetCropRect (idleState ⟨0, 0, 100, 100⟩)) ≠ ⟨0, 0, 1000, 800⟩ := by
  refine ⟨?_, ?_, ?_⟩
  · norm_num [viewGetCurrentCropRect, viewResetCropRect, getCropRect, resetToFullImage, idleState]
  · norm_num [imageDisplayBounds, min_def]
  · norm_num [viewGetCurrentCropRect, viewResetCropRect, getCropRect, resetToFullImage, idleState,
      CGRect.mk.injEq]

/-- Claim C2 (amended): a rectangle produced by a drag update
(`updateCropRect`, with a live handle and a non-degenerate viewport) is
contained in the overlay's viewport `bounds` — not in the letterboxed
image display rectangle: the code intersects with the view's own
`bounds`.  Rectangles from `resetCropRect` equal the viewport bounds and
`setCropRect` stores its input with no clamping at all, so containment in
the image's displayed frame fails for those (see the counterexample). -/
theorem C2_drag_rect_within_viewport_bounds (s : OverlayState) (t : CGPoint)
    (hh : s.activeHandle ≠ CropHandle.none)
    (hbw : 0 ≤ s.bounds.width) (hbh : 0 ≤ s.bounds.height)
    (hne : (updateCropRect s t).cropRect ≠ nullRect) :
    CGRect.subsetOf (updateCropRect s t).cropRect s.bounds := by
  cases hck : s.activeHandle
  case none => exact absurd hck hh
  all_goals
    rw [updateCropRect.eq_def] at hne ⊢
    rw [hck] at hne ⊢
    dsimp only at hne ⊢
    exact inter_subsetOf_right _ _ hbw hbh hne

/-- Witness for C2: dragging the bottom-right corner of the full-viewport
rectangle by (-100,-100) yields a rectangle inside the 500×500 viewport. -/
theorem C2_witness :
    CGRect.subsetOf
      (updateCropRect (dragState ⟨0, 0, 500, 500⟩ CropHandle.bottomRight Option.none)
        ⟨-100, -100⟩).cropRect
      (dragState ⟨0, 0, 500, 500⟩ CropHandle.bottomRight Option.none).bounds :=
  C2_drag_rect_within_viewport_bounds _ _
    (by simp [dragState])
    (by norm_num [dragState])
    (by norm_num [dragState])
    (by norm_num [updateCropRect, dragState, applyDelta, CGRect.inter, CGRect.toStd,
      CGRect.minX, CGRect.maxX, CGRect.minY, CGRect.maxY, min_def, max_def, nullRect,
      CGRect.mk.injEq])

/-- Counterexample for C2: with a 1000×800 image in a 500×500 viewport,
`resetCropRect` produces the whole viewport `{0,0,500,500}`, which is not
contained in the letterboxed image display rectangle `{0,50,500,400}`. -/
theorem C2_counterexample :
    ¬ CGRect.subsetOf (getCropRect (resetToFullImage (idleState ⟨0, 0, 100, 100⟩)))
        (imageDisplayBounds 1000 800 500 500) := by
  norm_num [getCropRect, resetToFullImage, idleState, imageDisplayBounds, CGRect.subsetOf,
    CGRect.minX, CGRect.maxX, CGRect.minY, CGRect.maxY, min_def, max_def]

/-- Claim C3 (amended): `setCropRect` is total — it never raises and
accepts every rectangle — but it stores the input verbatim: the
minimum-size and bounds clamping steps of the drag pipeline are not run
on programmatic input. -/
theorem C3_setCropRect_total_verbatim (s : OverlayState) (r : CGRect) :
    viewSetCropRect s r = { s with cropRect := r } := rfl

/-- Counterexample for C3: `setCropRect {x:-50,y:-50,width:30,height:30}`
with `minSize=(50,50)` stores exactly that rectangle — its size stays
below the minimum and its origin stays negative, with no clamping. -/
theorem C3_counterexample :
    (viewSetCropRect (idleState ⟨0, 0, 500, 500⟩) ⟨-50, -50, 30, 30⟩).cropRect
        = ⟨-50, -50, 30, 30⟩ ∧
    (viewSetCropRect (idleState ⟨0, 0, 500, 500⟩) ⟨-50, -50, 30, 30⟩).cropRect.width <
      (idleState ⟨0, 0, 500, 500⟩).minCropSize.width ∧
    (viewSetCropRect (idleState ⟨0, 0, 500, 500⟩) ⟨-50, -50, 30, 30⟩).cropRect.x < 0 := by
  norm_num [viewSetCropRect, setCropRect, idleState]

/-- Claim C4 (amended): a pointer-cancel does not restore the pre-drag
rectangle.  `.cancelled` is handled by the same branch as `.ended`: it
only clears the dragging flag and the active handle and leaves `cropRect`
at its last updated value. -/
theorem C4_cancel_keeps_last_rect (s : OverlayState) (loc : CGPoint) :
    (handlePan s PanPhase.cancelled loc).1.cropRect = s.cropRect ∧
    handlePan s PanPhase.cancelled loc = handlePan s PanPhase.ended loc := ⟨rfl, rfl⟩

/-- Counterexample for C4: grab the bottom-right corner of `{0,0,500,500}`
at (500,500), move to (400,400) (rectangle becomes `{0,0,400,400}`), then
cancel: the rectangle stays `{0,0,400,400}`, not the pre-drag
`{0,0,500,500}`. -/
theorem C4_counterexample :
    (handlePan
        (moveStep ((handlePan (idleState ⟨0, 0, 500, 500⟩) PanPhase.began ⟨500, 500⟩).1)
          ⟨400, 400⟩)
        PanPhase.cancelled ⟨400, 400⟩).1.cropRect ≠
      (idleState ⟨0, 0, 500, 500⟩).cropRect := by
  norm_num [handlePan, moveStep, idleState, getHandle, distSq, hitRadius, updateCropRect,
    applyDelta, CGRect.inter, CGRect.toStd, CGRect.containsPt, CGRect.minX, CGRect.maxX,
    CGRect.minY, CGRect.maxY, min_def, max_def, CGRect.mk.injEq]

/-- Claim C5 (amended): when the pointer-down position is out of range of
every handle the classifier returns `.none` and the rectangle never
changes during the subsequent pointer-moves; however the code still sets
its dragging flag at `.began` and emits a rect-change notification
(carrying the unchanged rectangle) on every `.changed` step — the gesture
is not fully ignored. -/
theorem C5_none_handle_rect_unchanged (s : OverlayState) (p : CGPoint)
    (locs : List CGPoint) (loc : CGPoint)
    (h : getHandle s.cropRect p = CropHandle.none) :
    (runMoves (handlePan s PanPhase.began p).1 locs).cropRect = s.cropRect ∧
    (handlePan (runMoves (handlePan s PanPhase.began p).1 locs) PanPhase.changed loc).2 =
      [CropEvent.rectChange s.cropRect] := by
  have hs1 : (handlePan s PanPhase.began p).1.activeHandle = CropHandle.none := h
  rw [runMoves_none locs _ hs1]
  refine ⟨rfl, ?_⟩
  have h2 : handlePan (handlePan s PanPhase.began p).1 PanPhase.changed loc =
      (updateCropRect (handlePan s PanPhase.began p).1
        ⟨loc.x - (handlePan s PanPhase.began p).1.dragStartPoint.x,
         loc.y - (handlePan s PanPhase.began p).1.dragStartPoint.y⟩,
       [CropEvent.rectChange (updateCropRect (handlePan s PanPhase.began p).1
        ⟨loc.x - (handlePan s PanPhase.began p).1.dragStartPoint.x,
         loc.y - (handlePan s PanPhase.began p).1.dragStartPoint.y⟩).cropRect]) := rfl
  rw [h2, updateCropRect_none _ _ hs1]
  rfl

/-- Witness for C5: pointer-down at (300,300), far from the `{0,0,100,100}`
rectangle, then a move to (310,310): the rectangle is unchanged and the
next move still emits a rect-change event with the unchanged rectangle. -/
theorem C5_witness :
    (runMoves (handlePan (idleState ⟨0, 0, 100, 100⟩) PanPhase.began ⟨300, 300⟩).1
        [⟨310, 310⟩]).cropRect = (idleState ⟨0, 0, 100, 100⟩).cropRect ∧
    (handlePan
        (runMoves (handlePan (idleState ⟨0, 0, 100, 100⟩) PanPhase.began ⟨300, 300⟩).1
          [⟨310, 310⟩])
        PanPhase.changed ⟨320, 320⟩).2 =
      [CropEvent.rectChange (idleState ⟨0, 0, 100, 100⟩).cropRect] :=
  C5_none_handle_rect_unchanged _ _ _ _
    (by norm_num [getHandle, distSq, hitRadius, idleState, CGRect.containsPt,
      CGRect.minX, CGRect.maxX, CGRect.minY, CGRect.maxY, min_def, max_def])

/-- Counterexample for C5: the claim says no rect-change event is ever
emitted after a `.none` pointer-down, but a `.changed` step after such a
pointer-down does emit a rect-change notification. -/
theorem C5_counterexample :
    getHandle (⟨0, 0, 100, 100⟩ : CGRect) ⟨300, 300⟩ = CropHandle.none ∧
    (handlePan ((handlePan (idleState ⟨0, 0, 100, 100⟩) PanPhase.began ⟨300, 300⟩).1)
        PanPhase.changed ⟨310, 310⟩).2 ≠ ([] : List CropEvent) := by
  constructor
  · norm_num [getHandle, distSq, hitRadius, idleState, CGRect.containsPt,
      CGRect.minX, CGRect.maxX, CGRect.minY, CGRect.maxY, min_def, max_def]
  · norm_num [handlePan, idleState, getHandle, distSq, hitRadius, updateCropRect, applyDelta,
      CGRect.inter, CGRect.toStd, CGRect.containsPt, CGRect.minX, CGRect.maxX, CGRect.minY,
      CGRect.maxY, min_def, max_def]

/-- Claim C6 (amended): the minimum-size clamp sets the clamped dimension
to exactly the configured minimum, but it anchors at the rectangle's
(already delta-shifted) origin.  For the BottomRight corner (and the
Right/Bottom edges) the origin is the edge/corner opposite the handle, so
the claim holds there: an over-shrinking drag yields exactly the minimum
size anchored at the original top-left corner.  For Left/Top-family
handles the origin itself has moved by the drag delta, so the opposite
edge does not keep its position (see the counterexample). -/
theorem C6_min_clamp_anchor_bottomRight (s : OverlayState) (t : CGPoint)
    (hh : s.activeHandle = CropHandle.bottomRight)
    (ha : s.aspectRatio = Option.none)
    (hwx : s.dragStartRect.width + t.x ≤ s.minCropSize.width)
    (hhy : s.dragStartRect.height + t.y ≤ s.minCropSize.height)
    (hmw : 0 ≤ s.minCropSize.width) (hmh : 0 ≤ s.minCropSize.height)
    (hbw : 0 ≤ s.bounds.width) (hbh : 0 ≤ s.bounds.height)
    (h1 : s.bounds.x ≤ s.dragStartRect.x) (h2 : s.bounds.y ≤ s.dragStartRect.y)
    (h3 : s.dragStartRect.x + s.minCropSize.width ≤ s.bounds.x + s.bounds.width)
    (h4 : s.dragStartRect.y + s.minCropSize.height ≤ s.bounds.y + s.bounds.height) :
    (updateCropRect s t).cropRect =
      ⟨s.dragStartRect.x, s.dragStartRect.y, s.minCropSize.width, s.minCropSize.height⟩ := by
  rw [updateCropRect.eq_def, hh, ha]
  dsimp only [applyDelta]
  rw [max_eq_right hwx, max_eq_right hhy]
  exact inter_of_subset _ _ hmw hmh hbw hbh h1 h2 h3 h4

/-- Witness for C6: the spec's concrete scenario — dragging the
bottom-right corner of the full `{0,0,500,500}` rectangle by
(-2000,-2000) yields the 50×50 minimum rectangle anchored at the original
top-left corner. -/
theorem C6_witness :
    (updateCropRect (dragState ⟨0, 0, 500, 500⟩ CropHandle.bottomRight Option.none)
        ⟨-2000, -2000⟩).cropRect = ⟨0, 0, 50, 50⟩ :=
  C6_min_clamp_anchor_bottomRight _ _ rfl rfl
    (by norm_num [dragState]) (by norm_num [dragState]) (by norm_num [dragState])
    (by norm_num [dragState]) (by norm_num [dragState]) (by norm_num [dragState])
    (by norm_num [dragState]) (by norm_num [dragState]) (by norm_num [dragState])
    (by norm_num [dragState])

/-- Counterexample for C6: dragging the Left edge of `{0,0,200,200}` far
rightward by (+300,0) (minimum size 50×50) fires the minimum clamp —
width becomes exactly 50 — but the right edge moves from 200 to 350
instead of keeping its position, refuting the claim's "the non-dragged
edge never moves". -/
theorem C6_counterexample :
    (updateCropRect (dragState ⟨0, 0, 200, 200⟩ CropHandle.left Option.none)
        ⟨300, 0⟩).cropRect.width =
      (dragState ⟨0, 0, 200, 200⟩ CropHandle.left Option.none).minCropSize.width ∧
    (updateCropRect (dragState ⟨0, 0, 200, 200⟩ CropHandle.left Option.none)
        ⟨300, 0⟩).cropRect.maxX ≠
      (dragState ⟨0, 0, 200, 200⟩ CropHandle.left Option.none).dragStartRect.maxX := by
  norm_num [updateCropRect, dragState, applyDelta, CGRect.inter, CGRect.toStd,
    CGRect.minX, CGRect.maxX, CGRect.minY, CGRect.maxY, min_def, max_def]

/-- Claim C7: the classifier's corner checks run before its edge, body and
none checks, with the fixed 44-display-pixel hit radius: any pointer
within the hit radius of some corner — in particular one also within an
adjacent edge's hit region — resolves to a corner handle. -/
theorem C7_corner_beats_edge (cropRect : CGRect) (p : CGPoint)
    (hc : distSq p ⟨cropRect.minX, cropRect.minY⟩ < hitRadius * hitRadius ∨
          distSq p ⟨cropRect.maxX, cropRect.minY⟩ < hitRadius * hitRadius ∨
          distSq p ⟨cropRect.minX, cropRect.maxY⟩ < hitRadius * hitRadius ∨
          distSq p ⟨cropRect.maxX, cropRect.maxY⟩ < hitRadius * hitRadius) :
    isCornerHandle (getHandle cropRect p) ∧ hitRadius = 44 := by
  refine ⟨?_, rfl⟩
  unfold getHandle
  split_ifs <;> simp_all [isCornerHandle]

/-- Witness for C7: the point (100,140) is within 44 px of the top-left
corner of `{100,100,200,200}` and also within the left edge's hit region;
the classifier resolves it to a corner handle. -/
theorem C7_witness :
    isCornerHandle (getHandle ⟨100, 100, 200, 200⟩ ⟨100, 140⟩) ∧ hitRadius = 44 :=
  C7_corner_beats_edge _ _
    (Or.inl (by norm_num [distSq, hitRadius, CGRect.minX, CGRect.minY, min_def]))

/-- Claim C8 (amended): whenever neither the minimum-size clamp nor the
bounds clamp altered the post-aspect rectangle, a drag with a positive
locked aspect ratio and a resize handle produces an exact ratio:
`width = ratio * height` (so `|width/height - ratio| = 0 < 1e-3`).  The
claim's only stated exception — the bounds clamp — is incomplete: the
minimum-size clamp also breaks the ratio (see the counterexample). -/
theorem C8_aspect_exact_when_unclamped (s : OverlayState) (t : CGPoint) (ratio : ℚ)
    (ha : s.aspectRatio = some ratio) (hr : 0 < ratio)
    (hres : isResizeHandle s.activeHandle)
    (hclamp : (updateCropRect s t).cropRect =
      applyAspectRatio (applyDelta s.dragStartRect s.activeHandle t) ratio s.activeHandle) :
    (updateCropRect s t).cropRect.width = ratio * (updateCropRect s t).cropRect.height := by
  rw [hclamp]
  exact applyAspectRatio_exact _ _ _ hres hr

/-- Witness for C8: the spec's concrete scenario — aspect ratio 1.0,
dragging the right edge of `{100,100,200,200}` by (+100,0) gives
`{100,100,300,300}`: the height equals the new width exactly. -/
theorem C8_witness :
    (updateCropRect (dragState ⟨100, 100, 200, 200⟩ CropHandle.right (some 1))
        ⟨100, 0⟩).cropRect.width =
      1 * (updateCropRect (dragState ⟨100, 100, 200, 200⟩ CropHandle.right (some 1))
        ⟨100, 0⟩).cropRect.height :=
  C8_aspect_exact_when_unclamped _ _ _ rfl (by norm_num)
    (by simp [dragState, isResizeHandle])
    (by norm_num [updateCropRect, dragState, applyDelta, applyAspectRatio, CGRect.inter,
      CGRect.toStd, CGRect.minX, CGRect.maxX, CGRect.minY, CGRect.maxY, min_def, max_def])

/-- Counterexample for C8: aspect ratio 2.0, minimum size 50×50, dragging
the right edge of `{100,100,100,50}` by (-40,0): the aspect step yields
`{100,100,60,30}` (ratio 2 exactly, and fully inside the bounds), but the
minimum-size clamp then raises the height to 50, producing
`{100,100,60,50}` with `|60/50 - 2| = 4/5 ≥ 1e-3` — the ratio is broken
by the minimum-size clamp, not by the bounds clamp. -/
theorem C8_counterexample :
    (updateCropRect (dragState ⟨100, 100, 100, 50⟩ CropHandle.right (some 2))
        ⟨-40, 0⟩).cropRect = ⟨100, 100, 60, 50⟩ ∧
    ¬ |(updateCropRect (dragState ⟨100, 100, 100, 50⟩ CropHandle.right (some 2))
          ⟨-40, 0⟩).cropRect.width /
        (updateCropRect (dragState ⟨100, 100, 100, 50⟩ CropHandle.right (some 2))
          ⟨-40, 0⟩).cropRect.height - 2| < 1 / 1000 ∧
    applyAspectRatio (applyDelta ⟨100, 100, 100, 50⟩ CropHandle.right ⟨-40, 0⟩) 2
        CropHandle.right = ⟨100, 100, 60, 30⟩ ∧
    CGRect.subsetOf (applyAspectRatio (applyDelta ⟨100, 100, 100, 50⟩ CropHandle.right ⟨-40, 0⟩) 2
        CropHandle.right)
      (dragState ⟨100, 100, 100, 50⟩ CropHandle.right (some 2)).bounds := by
  refine ⟨?_, ?_, ?_, ?_⟩ <;>
    norm_num [updateCropRect, dragState, applyDelta, applyAspectRatio, CGRect.inter,
      CGRect.toStd, CGRect.subsetOf, CGRect.minX, CGRect.maxX, CGRect.minY, CGRect.maxY,
      min_def, max_def, abs]

/-- Claim C9: `resetCropRect()` is idempotent: it assigns the overlay's
current `bounds` to `cropRect`, so a second call rewrites the same
value. -/
theorem C9_reset_idempotent (s : OverlayState) :
    viewResetCropRect (viewResetCropRect s) = viewResetCropRect s := rfl

/-- Claim C10: path independence of a drag session — every `.changed` step
recomputes the rectangle from the drag-start rectangle, the handle fixed
at pointer-down and the total translation from the start point only, so
two move sequences ending at the same pointer position produce the same
rectangle. -/
theorem C10_path_independence (s : OverlayState) (l1 l2 : List CGPoint)
    (h1 : l1 ≠ []) (h2 : l2 ≠ []) (hlast : l1.getLast h1 = l2.getLast h2) :
    (runMoves s l1).cropRect = (runMoves s l2).cropRect := by
  rw [runMoves_eq_last l1 s h1, runMoves_eq_last l2 s h2, hlast]

/-- Witness for C10: moving through (450,450) then (400,400) gives the same
rectangle as moving directly to (400,400). -/
theorem C10_witness :
    (runMoves (dragState ⟨0, 0, 500, 500⟩ CropHandle.bottomRight Option.none)
        [⟨450, 450⟩, ⟨400, 400⟩]).cropRect =
      (runMoves (dragState ⟨0, 0, 500, 500⟩ CropHandle.bottomRight Option.none)
        [⟨400, 400⟩]).cropRect :=
  C10_path_independence _ _ _ (by simp) (by simp) rfl

end Cropper
